import Mathlib

/-!
Shallow embedding of the `agnost-client` repository (TypeScript) in Lean 4.

The embedding covers:
* `AgnostClient` construction — argument validation and option merging
  (src/unnamed/part_000, `DEFAULT_OPTIONS` and the constructor);
* lazy manager accessors `auth`, `endpoint`, `storage`, `realtime`
  (src/unnamed/part_000) together with `StorageManager.bucket`
  (src/src/StorageManager.ts) and `BucketManager` (src/unnamed/part_001);
* the record shapes declared in src/src/types.ts (`EventData`, `APIError`,
  `ErrorEntry`) and the result shape of `BucketManager.upload`;
* the Realtime Channel Client state machine.  `RealtimeManager.ts` is not
  among the provided sources, so that component is modelled from the spec
  (sections 3, 4.1-4.4 and 8 of spec.md); each such definition carries a
  doc comment starting with `Modelled from the spec:`.
-/

namespace Agnost

/-- Model of a runtime JavaScript value as far as the embedded code needs to
distinguish them: `undefined`, `null`, booleans, numbers and strings. -/
inductive JSValue where
  | undef
  | nullv
  | boolv (b : Bool)
  | numv (n : Int)
  | strv (s : String)
  deriving DecidableEq

/-- The JavaScript `typeof x === "string"` test used by the `AgnostClient`
constructor on `apiKey` (src/unnamed/part_000 line 97). -/
def JSValue.isString : JSValue → Bool
  | .strv _ => true
  | _ => false

/-- Modelled from the spec: `ClientError` (src/utils/ClientError) is not under
src/.  At every call site visible in the sources it is constructed from a short
error code and a human readable message, so it is embedded as that pair. -/
structure ClientError where
  code : String
  message : String
  deriving DecidableEq

/-- Modelled from the spec: `checkRequired` (src/utils/helpers) is not under
src/.  The constructor doc comment says it throws when a required value "is not
specified"; it is modelled as failing exactly when the value is `undefined`,
`null` or the empty string. -/
def checkRequiredFails : JSValue → Bool
  | .undef => true
  | .nullv => true
  | .strv "" => true
  | _ => false

/-- The whitespace test of JavaScript `String.prototype.trim` restricted to
the common ASCII whitespace characters. -/
def jsWhitespace (c : Char) : Bool :=
  c == ' ' || c == '\t' || c == '\n' || c == '\r'

/-- JavaScript `String.prototype.trim`: strip whitespace from both ends
(defined over the character list so that it evaluates by reduction). -/
def jsTrim (s : String) : String :=
  String.mk (((s.toList.dropWhile jsWhitespace).reverse.dropWhile
    jsWhitespace).reverse)

/-- Whether the first character list is a leading segment of the second. -/
def leadsList : List Char → List Char → Bool
  | [], _ => true
  | _ :: _, [] => false
  | a :: as, b :: bs => a == b && leadsList as bs

/-- JavaScript `String.prototype.startsWith` (defined over the character
lists so that it evaluates by reduction). -/
def jsStartsWith (s pre : String) : Bool :=
  leadsList pre.toList s.toList

/-- Effective (fully resolved) realtime option values, mirroring
`RealtimeOptions` of src/src/types.ts once defaults have been applied. -/
structure RealtimeOptions where
  autoJoinChannels : Bool
  echoMessages : Bool
  reconnectionDelay : Nat
  timeout : Nat
  bufferMessages : Bool
  deriving DecidableEq

/-- Caller-supplied realtime options: every field of `RealtimeOptions`
(src/src/types.ts lines 158-188) is optional. -/
structure RealtimeOptionsInput where
  autoJoinChannels : Option Bool
  echoMessages : Option Bool
  reconnectionDelay : Option Nat
  timeout : Option Nat
  bufferMessages : Option Bool
  deriving DecidableEq

/-- Caller-supplied `ClientOptions` (src/src/types.ts lines 132-150), reduced
to the field the claims are about: the optional `realtime` block. -/
structure ClientOptionsInput where
  realtime : Option RealtimeOptionsInput
  deriving DecidableEq

/-- The effective settings held by a client: `this.settings` restricted to the
realtime block. -/
structure ClientSettings where
  realtime : RealtimeOptions
  deriving DecidableEq

/-- `DEFAULT_OPTIONS` of src/unnamed/part_000 lines 10-20 (realtime block). -/
def DEFAULT_OPTIONS : ClientSettings :=
  ⟨⟨true, true, 1000, 20000, true⟩⟩

/-- The realtime options actually supplied by the caller, after unwrapping the
two optional layers (`options?.realtime` in src/unnamed/part_000 line 113). -/
def realtimeInput (options : Option ClientOptionsInput) : RealtimeOptionsInput :=
  match options with
  | none => ⟨none, none, none, none, none⟩
  | some o =>
    match o.realtime with
    | none => ⟨none, none, none, none, none⟩
    | some r => r

namespace AgnostClient

/-- The net effect of the two object spreads of src/unnamed/part_000 lines
110-114: `this.settings.realtime = { ...DEFAULT_OPTIONS.realtime,
...options?.realtime }` — every field supplied by the caller wins, every other
field comes from `DEFAULT_OPTIONS.realtime`. -/
def mergedRealtime (options : Option ClientOptionsInput) : RealtimeOptions :=
  let r := realtimeInput options
  ⟨r.autoJoinChannels.getD DEFAULT_OPTIONS.realtime.autoJoinChannels,
   r.echoMessages.getD DEFAULT_OPTIONS.realtime.echoMessages,
   r.reconnectionDelay.getD DEFAULT_OPTIONS.realtime.reconnectionDelay,
   r.timeout.getD DEFAULT_OPTIONS.realtime.timeout,
   r.bufferMessages.getD DEFAULT_OPTIONS.realtime.bufferMessages⟩

/-- The `baseUrl` rejection test of the constructor (src/unnamed/part_000
lines 83-89): `!baseUrl || !(baseUrl.trim().startsWith("https://") ||
baseUrl.trim().startsWith("http://"))`. -/
def invalidBaseUrl (baseUrl : String) : Bool :=
  baseUrl == "" ||
    !(jsStartsWith (jsTrim baseUrl) "https://" ||
        jsStartsWith (jsTrim baseUrl) "http://")

/-- The validation and option-merging performed by the `AgnostClient`
constructor (src/unnamed/part_000 lines 82-114), with a thrown `ClientError`
embedded as `Except.error`. -/
def construct (baseUrl : String) (apiKey : JSValue)
    (options : Option ClientOptionsInput) : Except ClientError ClientSettings :=
  if invalidBaseUrl baseUrl then
    .error ⟨"missing_required_value",
      "baseUrl is a required parameter and needs to start with http(s)://"⟩
  else if checkRequiredFails apiKey then
    .error ⟨"missing_required_value", "apiKey is a required parameter"⟩
  else if !apiKey.isString then
    .error ⟨"invalid_client_key", "apiKey needs to be a valid key string"⟩
  else
    .ok ⟨mergedRealtime options⟩

end AgnostClient

/-- The error code carried by a failed construction, if any. -/
def errCode : Except ClientError ClientSettings → Option String
  | .error e => some e.code
  | .ok _ => none

/-- An `AuthManager` instance.  Its construction parameters are irrelevant to
the claims; `id` models object identity (each `new` yields a fresh id). -/
structure AuthManager where
  id : Nat
  deriving DecidableEq

/-- An `EndpointManager` instance; `id` models object identity. -/
structure EndpointManager where
  id : Nat
  deriving DecidableEq

/-- A `StorageManager` instance (src/src/StorageManager.ts lines 13-28): it
keeps the storage name it was constructed with; `id` models object identity. -/
structure StorageManager where
  id : Nat
  storageName : String
  deriving DecidableEq

/-- A `RealtimeManager` instance; `id` models object identity. -/
structure RealtimeManager where
  id : Nat
  deriving DecidableEq

/-- A `BucketManager` instance (src/unnamed/part_001 lines 18-41): it keeps
the storage name and bucket name it was constructed with. -/
structure BucketManager where
  storageName : String
  bucketName : String
  deriving DecidableEq

/-- `StorageManager.bucket` (src/src/StorageManager.ts lines 38-40): returns
`new BucketManager(this.#storageName, name, this.fetcher)`. -/
def StorageManager.bucket (m : StorageManager) (name : String) : BucketManager :=
  ⟨m.storageName, name⟩

/-- The manager fields of an `AgnostClient` instance (src/unnamed/part_000
lines 55-73).  `nextId` is the allocator that hands object identities to
newly constructed managers. -/
structure AgnostClient where
  authManager : Option AuthManager
  epManager : Option EndpointManager
  storageManager : Option StorageManager
  realtimeManager : Option RealtimeManager
  nextId : Nat
  deriving DecidableEq

namespace AgnostClient

/-- The manager fields right after lines 104-107 of the constructor set every
one of them to `null`. -/
def initManagers : AgnostClient := ⟨none, none, none, none, 0⟩

/-- The `auth` accessor (src/unnamed/part_000 lines 136-142): return the cached
`AuthManager` if present, otherwise construct one, cache it and return it.
The accessor returns the manager together with the (possibly updated) client. -/
def auth (c : AgnostClient) : AuthManager × AgnostClient :=
  match c.authManager with
  | some m => (m, c)
  | none =>
    let m : AuthManager := ⟨c.nextId⟩
    (m, { c with authManager := some m, nextId := c.nextId + 1 })

/-- The `endpoint` accessor (src/unnamed/part_000 lines 149-155). -/
def endpoint (c : AgnostClient) : EndpointManager × AgnostClient :=
  match c.epManager with
  | some m => (m, c)
  | none =>
    let m : EndpointManager := ⟨c.nextId⟩
    (m, { c with epManager := some m, nextId := c.nextId + 1 })

/-- The `storage(storageName)` accessor (src/unnamed/part_000 lines 162-168):
if a `StorageManager` is already cached it is returned unchanged — the
`storageName` argument is not consulted in that branch. -/
def storage (c : AgnostClient) (storageName : String) :
    StorageManager × AgnostClient :=
  match c.storageManager with
  | some m => (m, c)
  | none =>
    let m : StorageManager := ⟨c.nextId, storageName⟩
    (m, { c with storageManager := some m, nextId := c.nextId + 1 })

/-- The `realtime` accessor (src/unnamed/part_000 lines 177-183). -/
def realtime (c : AgnostClient) : RealtimeManager × AgnostClient :=
  match c.realtimeManager with
  | some m => (m, c)
  | none =>
    let m : RealtimeManager := ⟨c.nextId⟩
    (m, { c with realtimeManager := some m, nextId := c.nextId + 1 })

end AgnostClient

/-- `EventData` (src/src/types.ts lines 329-340): the structure of the
realtime event data (message) delivered to the clients — a channel that may be
`null` and the message contents. -/
structure EventData where
  channel : Option String
  message : JSValue
  deriving DecidableEq

/-- The JavaScript record a delivered `EventData` presents to a listener:
field names in declaration order with their runtime values (`channel = null`
encodes a broadcast not scoped to a channel). -/
def EventData.toRecord (e : EventData) : List (String × JSValue) :=
  [("channel", match e.channel with | none => JSValue.nullv | some s => JSValue.strv s),
   ("message", e.message)]

/-- The field names of an encoded JavaScript record. -/
def recordKeys (r : List (String × JSValue)) : List String :=
  r.map Prod.fst

/-- `ErrorEntry` (src/src/types.ts lines 233-257): `origin`, `code`,
`message` and an optional `details` object. -/
structure ErrorEntry where
  origin : String
  code : String
  message : String
  details : Option JSValue
  deriving DecidableEq

/-- The JavaScript record of an `ErrorEntry`; the `details` key is present
only when the optional field was set. -/
def ErrorEntry.toRecord (e : ErrorEntry) : List (String × JSValue) :=
  [("origin", JSValue.strv e.origin),
   ("code", JSValue.strv e.code),
   ("message", JSValue.strv e.message)] ++
    (match e.details with | none => [] | some d => [("details", d)])

/-- `APIError` (src/src/types.ts lines 208-226): an HTTP-style status code, a
status text and a list of error entries. -/
structure APIError where
  status : Int
  statusText : String
  items : List ErrorEntry
  deriving DecidableEq

/-- The top-level field names of the JavaScript record of an `APIError` (the
`items` array holds `ErrorEntry` records). -/
def APIError.recordKeys (_e : APIError) : List String :=
  ["status", "statusText", "items"]

/-- The result surfaced by `BucketManager.upload` (src/unnamed/part_001 lines
54-58): `{ data: object | null; errors: APIError | null }`. -/
structure UploadResult where
  data : Option JSValue
  errors : Option APIError
  deriving DecidableEq

/-- The top-level field names of the JavaScript record of an upload result. -/
def UploadResult.recordKeys (_r : UploadResult) : List String :=
  ["data", "errors"]

/-- Modelled from the spec: the Envelope of spec.md section 3 — `{ channel:
string | null, event: string, payload: any, originId: string }` — built by the
missing `RealtimeManager` on every `send`. -/
structure Envelope where
  channel : Option String
  event : String
  payload : JSValue
  originId : String
  deriving DecidableEq

/-- Modelled from the spec: the transport frames the Connection Controller
emits — join/leave requests for a channel and outbound message envelopes
(spec.md sections 4.1-4.3). -/
inductive Frame where
  | joinFrame (channel : String)
  | leaveFrame (channel : String)
  | sendFrame (env : Envelope)
  deriving DecidableEq

/-- The envelope carried by a send frame, if the frame is one. -/
def Frame.sendOf : Frame → Option Envelope
  | .sendFrame e => some e
  | _ => none

/-- Whether a frame is a send frame. -/
def Frame.isSend : Frame → Bool
  | .sendFrame _ => true
  | _ => false

/-- Whether a frame is a (re)join frame. -/
def Frame.isJoin : Frame → Bool
  | .joinFrame _ => true
  | _ => false

/-- Modelled from the spec: the Connection Controller lifecycle states of
spec.md section 4.1. -/
inductive ConnState where
  | disconnected
  | connecting
  | connected
  | reconnecting
  | closed
  deriving DecidableEq

/-- Modelled from the spec: the mutable state of the Realtime Channel Client —
connection lifecycle state, the server-assigned connection identifier,
ChannelMembership and the Outbound Buffer (spec.md section 3). -/
structure RTState where
  conn : ConnState
  connId : Option String
  membership : List String
  buffer : List Envelope
  deriving DecidableEq

namespace RTState

/-- The state of a freshly created Realtime Channel Client: disconnected, no
connection id, no memberships, empty buffer. -/
def init : RTState := ⟨ConnState.disconnected, none, [], []⟩

/-- Modelled from the spec: `join(name)` (spec.md section 4.2) — idempotent on
the registry; a join frame is (re)sent when connected.  The registry mutation
is independent of connection state (spec.md section 3 invariant). -/
def join (st : RTState) (name : String) : RTState × List Frame :=
  (if name ∈ st.membership then st
   else { st with membership := st.membership ++ [name] },
   if st.conn = ConnState.connected then [Frame.joinFrame name] else [])

/-- Modelled from the spec: `leave(name)` (spec.md section 4.2) — removes the
channel from ChannelMembership and, when connected, sends a leave frame; a
no-op if the channel was never joined. -/
def leave (st : RTState) (name : String) : RTState × List Frame :=
  if name ∈ st.membership then
    ({ st with membership := st.membership.filter (fun m => m != name) },
     if st.conn = ConnState.connected then [Frame.leaveFrame name] else [])
  else (st, [])

/-- Modelled from the spec: dispatch of an already-built envelope (spec.md
section 4.3) — transmit immediately when `Connected`; otherwise append to the
Outbound Buffer when `bufferMessages` is enabled; otherwise fail synchronously
with a `not_connected` condition. -/
def sendEnv (st : RTState) (opts : RealtimeOptions) (env : Envelope) :
    RTState × List Frame × Option String :=
  if st.conn = ConnState.connected then (st, [Frame.sendFrame env], none)
  else if opts.bufferMessages then
    ({ st with buffer := st.buffer ++ [env] }, [], none)
  else (st, [], some "not_connected")

/-- Modelled from the spec: the Envelope built by a `send(channel, event,
payload)` call — `originId` identifies the sending connection (spec.md
section 3). -/
def buildEnvelope (st : RTState) (channel : Option String) (event : String)
    (payload : JSValue) : Envelope :=
  ⟨channel, event, payload, st.connId.getD ""⟩

/-- Modelled from the spec: `send(channel, event, payload)` (spec.md section
4.3) — builds an Envelope and dispatches it via `sendEnv`. -/
def send (st : RTState) (opts : RealtimeOptions) (channel : Option String)
    (event : String) (payload : JSValue) : RTState × List Frame × Option String :=
  st.sendEnv opts (st.buildEnvelope channel event payload)

/-- Modelled from the spec: the `Connecting --success--> Connected` transition
(spec.md section 4.1): assign the server-provided connection identifier; if
`autoJoinChannels` is enabled re-send a join frame for every entry of
ChannelMembership; if `bufferMessages` is enabled flush the Outbound Buffer in
FIFO order after the rejoin frames, then clear it. -/
def connectSuccess (st : RTState) (opts : RealtimeOptions) (newId : String) :
    RTState × List Frame :=
  ({ st with
      conn := ConnState.connected
      connId := some newId
      buffer := if opts.bufferMessages then [] else st.buffer },
   (if opts.autoJoinChannels then st.membership.map Frame.joinFrame else []) ++
     (if opts.bufferMessages then st.buffer.map Frame.sendFrame else []))

/-- Modelled from the spec: a non-explicit transport drop (spec.md section
4.1) — the controller enters `Reconnecting`; ChannelMembership and the
Outbound Buffer survive. -/
def transportDrop (st : RTState) : RTState :=
  { st with conn := ConnState.reconnecting }

/-- Modelled from the spec: explicit `disconnect()` (spec.md section 4.1) —
enters the terminal `Closed` state and discards the Outbound Buffer. -/
def disconnect (st : RTState) : RTState :=
  { st with conn := ConnState.closed, buffer := [] }

end RTState

/-- An application-facing or transport-facing operation on the Realtime
Channel Client, used to quantify over call sequences. -/
inductive ROp where
  | join (name : String)
  | leave (name : String)
  | send (env : Envelope)
  | connectSuccess (newId : String)
  | transportDrop
  | disconnect
  deriving DecidableEq

/-- The state reached by one operation (frames and errors discarded). -/
def stepOp (opts : RealtimeOptions) (st : RTState) : ROp → RTState
  | .join n => (st.join n).1
  | .leave n => (st.leave n).1
  | .send e => (st.sendEnv opts e).1
  | .connectSuccess i => (st.connectSuccess opts i).1
  | .transportDrop => st.transportDrop
  | .disconnect => st.disconnect

/-- The state reached by a sequence of operations. -/
def runOps (opts : RealtimeOptions) (st : RTState) : List ROp → RTState
  | [] => st
  | op :: rest => runOps opts (stepOp opts st op) rest

/-- One step of the specification-side fold for channel `x`: a `join x`
records `some true`, a `leave x` records `some false`, anything else keeps the
accumulator. -/
def membAcc (x : String) (acc : Option Bool) : ROp → Option Bool
  | .join n => if n = x then some true else acc
  | .leave n => if n = x then some false else acc
  | _ => acc

/-- Whether the last membership action on channel `x` in the call sequence was
a join (`some true`), a leave (`some false`) or absent (`none`): channel `x`
was "joined and not subsequently left" exactly when this is `some true`. -/
def lastMembershipAction (ops : List ROp) (x : String) : Option Bool :=
  ops.foldl (membAcc x) none

/-- Listener registrations (spec.md sections 4.2 and 4.4): custom event
listeners as `(eventName, callback id)` pairs in registration order, and the
fixed presence listener lists. -/
structure ListenerRegistry where
  eventListeners : List (String × Nat)
  joinListeners : List Nat
  leaveListeners : List Nat
  updateListeners : List Nat
  deriving DecidableEq

/-- The three presence notifications of spec.md section 4.2. -/
inductive PresenceKind where
  | memberJoined
  | memberLeft
  | memberUpdated
  deriving DecidableEq

/-- The presence listener list a presence notification is routed to. -/
def ListenerRegistry.presenceList (reg : ListenerRegistry) :
    PresenceKind → List Nat
  | .memberJoined => reg.joinListeners
  | .memberLeft => reg.leaveListeners
  | .memberUpdated => reg.updateListeners

/-- Modelled from the spec: dispatch of an inbound custom-event envelope
(spec.md sections 4.2 and 4.4): when echo suppression is on (`echoMessages`
false) and the envelope's `originId` equals the local connection identifier,
no custom-event listener is invoked; otherwise the listeners registered for
the envelope's event run in registration order. -/
def dispatchEvent (opts : RealtimeOptions) (connId : Option String)
    (reg : ListenerRegistry) (env : Envelope) : List Nat :=
  if opts.echoMessages = false ∧ connId = some env.originId then []
  else (reg.eventListeners.filter (fun p => p.1 == env.event)).map Prod.snd

/-- Modelled from the spec: dispatch of an inbound presence notification
(spec.md section 4.2): presence listeners are always invoked — echo
suppression applies "only for the `send`/custom-event channel, not for
presence notifications", so the notification's origin is received but never
consulted. -/
def dispatchPresence (_opts : RealtimeOptions) (_connId : Option String)
    (reg : ListenerRegistry) (kind : PresenceKind) (_originId : String) :
    List Nat :=
  reg.presenceList kind

/-- Every join frame of the list precedes every send frame: once the first
send frame has been reached no later frame is a join frame. -/
def noJoinAfterSend (fs : List Frame) : Bool :=
  (fs.dropWhile (fun f => !f.isSend)).all (fun f => !f.isJoin)

/-- The membership of the state after dispatching an envelope is unchanged:
`sendEnv` only touches the buffer. -/
theorem sendEnv_fst_membership (st : RTState) (opts : RealtimeOptions)
    (e : Envelope) : (st.sendEnv opts e).1.membership = st.membership := by
  unfold RTState.sendEnv
  split
  · rfl
  · split <;> rfl

/-- Membership after `join n` contains `x` iff it did before or `x = n`. -/
theorem join_fst_membership (st : RTState) (n x : String) :
    x ∈ (st.join n).1.membership ↔ (x ∈ st.membership ∨ x = n) := by
  unfold RTState.join
  split
  · rename_i h
    constructor
    · exact Or.inl
    · rintro (hx | rfl)
      · exact hx
      · exact h
  · simp [List.mem_append]

/-- Membership after `leave n` contains `x` iff it did before and `x ≠ n`. -/
theorem leave_fst_membership (st : RTState) (n x : String) :
    x ∈ (st.leave n).1.membership ↔ (x ∈ st.membership ∧ x ≠ n) := by
  unfold RTState.leave
  split
  · rename_i h
    simp [List.mem_filter, bne_iff_ne]
  · rename_i h
    simp only
    constructor
    · intro hx
      exact ⟨hx, fun he => h (he ▸ hx)⟩
    · exact And.left

/-- Generalized invariant behind C1: running any operation sequence preserves
the correspondence between membership of channel `x` and the
specification-side fold over the sequence's join/leave calls. -/
theorem runOps_membership_spec (opts : RealtimeOptions) (ops : List ROp)
    (x : String) :
    ∀ (st : RTState) (acc : Option Bool),
      (x ∈ st.membership ↔ acc = some true) →
      (x ∈ (runOps opts st ops).membership
        ↔ List.foldl (membAcc x) acc ops = some true) := by
  induction ops with
  | nil =>
    intro st acc h
    simpa using h
  | cons op rest ih =>
    intro st acc h
    rw [runOps, List.foldl_cons]
    apply ih
    cases op with
    | join n =>
      simp only [stepOp, membAcc]
      rw [join_fst_membership]
      by_cases hn : n = x
      · simp [hn, eq_comm]
      · have hxn : ¬(x = n) := fun e => hn e.symm
        simp [hn, hxn, h]
    | leave n =>
      simp only [stepOp, membAcc]
      rw [leave_fst_membership]
      by_cases hn : n = x
      · simp [hn, eq_comm]
      · have hxn : ¬(x = n) := fun e => hn e.symm
        simp [hn, hxn, h]
    | send e =>
      simpa [stepOp, sendEnv_fst_membership, membAcc] using h
    | connectSuccess i =>
      simpa [stepOp, RTState.connectSuccess, membAcc] using h
    | transportDrop =>
      simpa [stepOp, RTState.transportDrop, membAcc] using h
    | disconnect =>
      simpa [stepOp, RTState.disconnect, membAcc] using h

/-- C1: for every sequence of operations on a fresh Realtime Channel Client —
join/leave calls interleaved with sends, connection successes, transport drops
and disconnects, so in any connection state — a channel is in
ChannelMembership afterwards exactly when its last join/leave action in the
sequence was a join, i.e. it was joined and not subsequently left. -/
theorem membership_joined_not_left (opts : RealtimeOptions) (ops : List ROp)
    (x : String) :
    x ∈ (runOps opts RTState.init ops).membership
      ↔ lastMembershipAction ops x = some true := by
  have h := runOps_membership_spec opts ops x RTState.init none
    (by simp [RTState.init])
  simpa [lastMembershipAction] using h

/-- Sends issued while the connection is unusable, with buffering enabled, are
appended to the Outbound Buffer in call order and change nothing else. -/
theorem run_sends_buffered (opts : RealtimeOptions) (envs : List Envelope) :
    ∀ st : RTState, opts.bufferMessages = true →
      st.conn ≠ ConnState.connected →
      runOps opts st (envs.map ROp.send)
        = { st with buffer := st.buffer ++ envs } := by
  induction envs with
  | nil =>
    intro st _ _
    simp [runOps]
  | cons e rest ih =>
    intro st hb hc
    rw [List.map_cons, runOps]
    have hstep : stepOp opts st (ROp.send e)
        = { st with buffer := st.buffer ++ [e] } := by
      simp [stepOp, RTState.sendEnv, hb, hc]
    rw [hstep, ih { st with buffer := st.buffer ++ [e] } hb hc]
    simp [List.append_assoc]

/-- Join frames carry no envelope. -/
theorem filterMap_sendOf_joins (l : List String) :
    l.filterMap (Frame.sendOf ∘ Frame.joinFrame) = [] := by
  induction l with
  | nil => rfl
  | cons a t ih => simp [Frame.sendOf, Function.comp, ih]

/-- Extracting the envelopes of a list of send frames recovers the list. -/
theorem filterMap_sendOf_sends (l : List Envelope) :
    l.filterMap (Frame.sendOf ∘ Frame.sendFrame) = l := by
  induction l with
  | nil => rfl
  | cons a t ih => simp [Frame.sendOf, Function.comp, ih]

/-- A list of send frames contains no join frame. -/
theorem all_not_join_sends (l : List Envelope) :
    (l.map Frame.sendFrame).all (fun f => !f.isJoin) = true := by
  induction l with
  | nil => rfl
  | cons a t ih => simp [Frame.isJoin, ih]

/-- A block of join frames followed by a block of send frames never has a join
frame after a send frame. -/
theorem noJoinAfterSend_joins_then_sends (cs : List String)
    (es : List Envelope) :
    noJoinAfterSend (cs.map Frame.joinFrame ++ es.map Frame.sendFrame)
      = true := by
  induction cs with
  | nil =>
    cases es with
    | nil => rfl
    | cons e t =>
      simp [noJoinAfterSend, List.dropWhile, Frame.isSend, Frame.isJoin,
        all_not_join_sends t]
  | cons c t ih =>
    simpa [noJoinAfterSend, List.dropWhile, Frame.isSend] using ih

/-- C2: with `bufferMessages` enabled, for every sequence of sends issued
while the connection is not usable, the frames emitted by the next successful
(re)connection transmit exactly the previously buffered envelopes followed by
the new ones, in enqueue order (FIFO, never reordered); the buffer is cleared;
with `autoJoinChannels` enabled a rejoin frame is emitted for every channel in
ChannelMembership; and no rejoin frame follows any send frame, so the rejoin
phase precedes every buffered send. -/
theorem buffered_send_flush_order (opts : RealtimeOptions) (st : RTState)
    (envs : List Envelope) (newId : String)
    (hb : opts.bufferMessages = true) (hc : st.conn ≠ ConnState.connected) :
    ((runOps opts st (envs.map ROp.send)).connectSuccess opts newId).2.filterMap
        Frame.sendOf = st.buffer ++ envs
  ∧ ((runOps opts st (envs.map ROp.send)).connectSuccess opts newId).1.buffer
        = []
  ∧ (opts.autoJoinChannels = true → ∀ c ∈ st.membership,
      Frame.joinFrame c
        ∈ ((runOps opts st (envs.map ROp.send)).connectSuccess opts newId).2)
  ∧ noJoinAfterSend
      ((runOps opts st (envs.map ROp.send)).connectSuccess opts newId).2
      = true := by
  rw [run_sends_buffered opts envs st hb hc]
  refine ⟨?_, ?_, ?_, ?_⟩
  · by_cases haj : opts.autoJoinChannels = true <;>
      simp [RTState.connectSuccess, hb, haj, List.filterMap_append,
        filterMap_sendOf_joins, filterMap_sendOf_sends]
  · simp [RTState.connectSuccess, hb]
  · intro haj c hcm
    simp only [RTState.connectSuccess, hb, haj, if_true, List.mem_append]
    exact Or.inl (List.mem_map.mpr ⟨c, hcm, rfl⟩)
  · by_cases haj : opts.autoJoinChannels = true
    · simpa [RTState.connectSuccess, hb, haj] using
        noJoinAfterSend_joins_then_sends st.membership (st.buffer ++ envs)
    · simpa [RTState.connectSuccess, hb, haj] using
        noJoinAfterSend_joins_then_sends [] (st.buffer ++ envs)

/-- Witness for C2: a client subscribed to `chat` goes offline and sends two
messages; on reconnection the rejoin frame precedes both buffered sends, which
are flushed in order and removed from the buffer. -/
theorem buffered_send_flush_order_witness :
    ((runOps ⟨true, true, 1000, 20000, true⟩
        ⟨ConnState.disconnected, none, ["chat"], []⟩
        ([⟨some "chat", "msg", JSValue.strv "hi", ""⟩,
          ⟨some "chat", "msg", JSValue.strv "again", ""⟩].map
            ROp.send)).connectSuccess ⟨true, true, 1000, 20000, true⟩
        "sock-1").2.filterMap Frame.sendOf
      = [] ++ [⟨some "chat", "msg", JSValue.strv "hi", ""⟩,
          ⟨some "chat", "msg", JSValue.strv "again", ""⟩]
  ∧ ((runOps ⟨true, true, 1000, 20000, true⟩
        ⟨ConnState.disconnected, none, ["chat"], []⟩
        ([⟨some "chat", "msg", JSValue.strv "hi", ""⟩,
          ⟨some "chat", "msg", JSValue.strv "again", ""⟩].map
            ROp.send)).connectSuccess ⟨true, true, 1000, 20000, true⟩
        "sock-1").1.buffer = []
  ∧ ((⟨true, true, 1000, 20000, true⟩ : RealtimeOptions).autoJoinChannels = true →
      ∀ c ∈ (⟨ConnState.disconnected, none, ["chat"], []⟩ : RTState).membership,
        Frame.joinFrame c
          ∈ ((runOps ⟨true, true, 1000, 20000, true⟩
              ⟨ConnState.disconnected, none, ["chat"], []⟩
              ([⟨some "chat", "msg", JSValue.strv "hi", ""⟩,
                ⟨some "chat", "msg", JSValue.strv "again", ""⟩].map
                  ROp.send)).connectSuccess ⟨true, true, 1000, 20000, true⟩
              "sock-1").2)
  ∧ noJoinAfterSend
      ((runOps ⟨true, true, 1000, 20000, true⟩
          ⟨ConnState.disconnected, none, ["chat"], []⟩
          ([⟨some "chat", "msg", JSValue.strv "hi", ""⟩,
            ⟨some "chat", "msg", JSValue.strv "again", ""⟩].map
              ROp.send)).connectSuccess ⟨true, true, 1000, 20000, true⟩
          "sock-1").2 = true :=
  buffered_send_flush_order ⟨true, true, 1000, 20000, true⟩
    ⟨ConnState.disconnected, none, ["chat"], []⟩
    [⟨some "chat", "msg", JSValue.strv "hi", ""⟩,
     ⟨some "chat", "msg", JSValue.strv "again", ""⟩] "sock-1" rfl (by decide)

/-- C3: with `echoMessages` disabled, an inbound envelope whose `originId`
equals the local connection identifier invokes no custom-event listener, while
a presence notification under the same conditions still invokes every
registered presence listener. -/
theorem echo_suppression (opts : RealtimeOptions) (connId : Option String)
    (reg : ListenerRegistry) (env : Envelope) (kind : PresenceKind)
    (originId : String) (he : opts.echoMessages = false)
    (ho : connId = some env.originId) :
    dispatchEvent opts connId reg env = []
  ∧ dispatchPresence opts connId reg kind originId = reg.presenceList kind :=
  ⟨by simp [dispatchEvent, he, ho], rfl⟩

/-- Witness for C3: a self-originated `msg` envelope is suppressed for the
custom listener, while the member-joined presence listeners still fire. -/
theorem echo_suppression_witness :
    dispatchEvent ⟨true, false, 1000, 20000, true⟩ (some "sock-1")
        ⟨[("msg", 1)], [2], [3], [4]⟩
        ⟨some "chat", "msg", JSValue.nullv, "sock-1"⟩ = []
  ∧ dispatchPresence ⟨true, false, 1000, 20000, true⟩ (some "sock-1")
        ⟨[("msg", 1)], [2], [3], [4]⟩ PresenceKind.memberJoined "sock-1"
      = ListenerRegistry.presenceList ⟨[("msg", 1)], [2], [3], [4]⟩
          PresenceKind.memberJoined :=
  echo_suppression ⟨true, false, 1000, 20000, true⟩ (some "sock-1")
    ⟨[("msg", 1)], [2], [3], [4]⟩ ⟨some "chat", "msg", JSValue.nullv, "sock-1"⟩
    PresenceKind.memberJoined "sock-1" rfl rfl

/-- C4: `send(channel, event, payload)` builds an Envelope and transmits it
immediately when `Connected`; otherwise appends it to the Outbound Buffer when
`bufferMessages` is enabled; otherwise fails synchronously with
`not_connected`, neither buffering nor transmitting anything. -/
theorem send_dispatch (opts : RealtimeOptions) (st : RTState)
    (channel : Option String) (event : String) (payload : JSValue) :
    (st.conn = ConnState.connected →
       st.send opts channel event payload
         = (st, [Frame.sendFrame (st.buildEnvelope channel event payload)],
            none))
  ∧ (st.conn ≠ ConnState.connected → opts.bufferMessages = true →
       st.send opts channel event payload
         = ({ st with
              buffer := st.buffer ++ [st.buildEnvelope channel event payload] },
            [], none))
  ∧ (st.conn ≠ ConnState.connected → opts.bufferMessages = false →
       st.send opts channel event payload = (st, [], some "not_connected")) :=
  ⟨fun h1 => by simp [RTState.send, RTState.sendEnv, h1],
   fun h1 h2 => by simp [RTState.send, RTState.sendEnv, h1, h2],
   fun h1 h2 => by simp [RTState.send, RTState.sendEnv, h1, h2]⟩

/-- Witness for C4 covering all three branches: a connected client transmits
at once, a disconnected buffering client enqueues, and a disconnected
non-buffering client fails with `not_connected`. -/
theorem send_dispatch_witness :
    RTState.send ⟨ConnState.connected, some "sock-1", ["chat"], []⟩
        ⟨true, true, 1000, 20000, true⟩ (some "chat") "msg" (JSValue.strv "hi")
      = (⟨ConnState.connected, some "sock-1", ["chat"], []⟩,
         [Frame.sendFrame ⟨some "chat", "msg", JSValue.strv "hi", "sock-1"⟩],
         none)
  ∧ RTState.send ⟨ConnState.disconnected, none, [], []⟩
        ⟨true, true, 1000, 20000, true⟩ (some "chat") "msg" (JSValue.strv "hi")
      = (⟨ConnState.disconnected, none, [],
          [⟨some "chat", "msg", JSValue.strv "hi", ""⟩]⟩, [], none)
  ∧ RTState.send ⟨ConnState.disconnected, none, [], []⟩
        ⟨true, true, 1000, 20000, false⟩ (some "chat") "msg" (JSValue.strv "hi")
      = (⟨ConnState.disconnected, none, [], []⟩, [], some "not_connected") :=
  ⟨(send_dispatch ⟨true, true, 1000, 20000, true⟩
      ⟨ConnState.connected, some "sock-1", ["chat"], []⟩ (some "chat") "msg"
      (JSValue.strv "hi")).1 rfl,
   (send_dispatch ⟨true, true, 1000, 20000, true⟩
      ⟨ConnState.disconnected, none, [], []⟩ (some "chat") "msg"
      (JSValue.strv "hi")).2.1 (by decide) rfl,
   (send_dispatch ⟨true, true, 1000, 20000, false⟩
      ⟨ConnState.disconnected, none, [], []⟩ (some "chat") "msg"
      (JSValue.strv "hi")).2.2 (by decide) rfl⟩

/-- C8: each manager accessor of `AgnostClient` is idempotent — accessing
`auth`, `endpoint`, `realtime`, or `storage` a second time on the client state
produced by the first access returns the identical manager instance and leaves
the client unchanged, so the manager is constructed at most once, on first
access. -/
theorem manager_access_idempotent (c : AgnostClient) (a b : String) :
    (c.auth.2).auth = c.auth
  ∧ (c.endpoint.2).endpoint = c.endpoint
  ∧ (c.realtime.2).realtime = c.realtime
  ∧ ((c.storage a).2).storage b = c.storage a := by
  refine ⟨?_, ?_, ?_, ?_⟩
  · cases h : c.authManager <;> simp [AgnostClient.auth, h]
  · cases h : c.epManager <;> simp [AgnostClient.endpoint, h]
  · cases h : c.realtimeManager <;> simp [AgnostClient.realtime, h]
  · cases h : c.storageManager <;> simp [AgnostClient.storage, h]

/-- C10: on a client whose storage manager has not been created yet,
`storage(a)` followed by `storage(b)` returns the very manager created by the
first call, which is bound to storage name `a`; consequently `bucket(n)` on it
targets storage `a`. -/
theorem storage_name_cached (c : AgnostClient) (a b n : String)
    (h : c.storageManager = none) :
    ((c.storage a).2.storage b).1 = (c.storage a).1
  ∧ (c.storage a).1.storageName = a
  ∧ (((c.storage a).2.storage b).1.bucket n).storageName = a := by
  simp [AgnostClient.storage, h, StorageManager.bucket]

/-- Witness for C10 at the freshly initialized client and concrete names. -/
theorem storage_name_cached_witness :
    ((AgnostClient.initManagers.storage "photos").2.storage "docs").1
        = (AgnostClient.initManagers.storage "photos").1
  ∧ (AgnostClient.initManagers.storage "photos").1.storageName = "photos"
  ∧ (((AgnostClient.initManagers.storage "photos").2.storage "docs").1.bucket
        "avatars").storageName = "photos" :=
  storage_name_cached AgnostClient.initManagers "photos" "docs" "avatars" rfl

/-- C6 (counterexample): the record delivered to a listener is an `EventData`,
whose keys are `channel` and `message`; it is not of the claimed shape
`{ channel, event, payload, originId }` — in particular it carries no
`originId` and no `event` field. -/
theorem eventData_not_envelope_shape :
    recordKeys (EventData.toRecord ⟨none, JSValue.nullv⟩)
        ≠ ["channel", "event", "payload", "originId"]
  ∧ "originId" ∉ recordKeys (EventData.toRecord ⟨none, JSValue.nullv⟩)
  ∧ "event" ∉ recordKeys (EventData.toRecord ⟨none, JSValue.nullv⟩) := by
  decide

/-- C6 (amended): every realtime message delivered to a listener is an
`EventData` record of shape `{ channel: string | null, message: any }`, where
`channel = null` (encoded `JSValue.nullv`) denotes a broadcast to all
connected clients not scoped to a channel. -/
theorem eventData_record_shape (e : EventData) :
    recordKeys (EventData.toRecord e) = ["channel", "message"]
  ∧ (EventData.toRecord ⟨none, e.message⟩).lookup "channel" = some JSValue.nullv := by
  exact ⟨rfl, rfl⟩

/-- C7: surfaced results follow the `{ data, errors }` envelope, an `APIError`
carries an HTTP-style status, a status text and a list of entries, and each
entry is `{ origin, code, message }` with an optional `details` key. -/
theorem api_result_shape :
    (∀ r : UploadResult, r.recordKeys = ["data", "errors"])
  ∧ (∀ e : APIError, e.recordKeys = ["status", "statusText", "items"])
  ∧ (∀ en : ErrorEntry, en.details = none →
       recordKeys en.toRecord = ["origin", "code", "message"])
  ∧ (∀ en : ErrorEntry, ∀ d, en.details = some d →
       recordKeys en.toRecord = ["origin", "code", "message", "details"]) := by
  refine ⟨fun r => rfl, fun e => rfl, ?_, ?_⟩
  · intro en h
    simp [ErrorEntry.toRecord, recordKeys, h]
  · intro en d h
    simp [ErrorEntry.toRecord, recordKeys, h]

/-- Witness for C7 at concrete error entries with and without details. -/
theorem api_result_shape_witness :
    recordKeys (ErrorEntry.toRecord ⟨"client", "bad_request", "oops", none⟩)
        = ["origin", "code", "message"]
  ∧ recordKeys (ErrorEntry.toRecord
        ⟨"server", "internal", "boom", some JSValue.nullv⟩)
        = ["origin", "code", "message", "details"] :=
  ⟨api_result_shape.2.2.1 ⟨"client", "bad_request", "oops", none⟩ rfl,
   api_result_shape.2.2.2 ⟨"server", "internal", "boom", some JSValue.nullv⟩
     JSValue.nullv rfl⟩

/-- C5: whenever construction succeeds, every realtime option explicitly
supplied by the caller overrides the default and every unspecified option
receives its documented default (`autoJoinChannels` true, `echoMessages` true,
`reconnectionDelay` 1000, `timeout` 20000, `bufferMessages` true) — stated via
`Option.getD`, which returns the supplied value when present and the default
otherwise. -/
theorem realtime_defaults_overrides (baseUrl : String) (apiKey : JSValue)
    (options : Option ClientOptionsInput) (s : ClientSettings)
    (hok : AgnostClient.construct baseUrl apiKey options = Except.ok s) :
    s.realtime.autoJoinChannels
        = ((realtimeInput options).autoJoinChannels).getD true
  ∧ s.realtime.echoMessages = ((realtimeInput options).echoMessages).getD true
  ∧ s.realtime.reconnectionDelay
        = ((realtimeInput options).reconnectionDelay).getD 1000
  ∧ s.realtime.timeout = ((realtimeInput options).timeout).getD 20000
  ∧ s.realtime.bufferMessages
        = ((realtimeInput options).bufferMessages).getD true := by
  have hs : s = ⟨AgnostClient.mergedRealtime options⟩ := by
    unfold AgnostClient.construct at hok
    split at hok
    · exact absurd hok (by simp)
    · split at hok
      · exact absurd hok (by simp)
      · split at hok
        · exact absurd hok (by simp)
        · injection hok with h
          exact h.symm
  subst hs
  exact ⟨rfl, rfl, rfl, rfl, rfl⟩

/-- Witness for C5: a caller supplying `autoJoinChannels = false`,
`reconnectionDelay = 250` and `bufferMessages = false` gets exactly those
values, while `echoMessages` and `timeout` fall back to their defaults. -/
theorem realtime_defaults_overrides_witness :
    (⟨⟨false, true, 250, 20000, false⟩⟩ : ClientSettings).realtime.autoJoinChannels
        = ((realtimeInput (some ⟨some ⟨some false, none, some 250, none,
            some false⟩⟩)).autoJoinChannels).getD true
  ∧ (⟨⟨false, true, 250, 20000, false⟩⟩ : ClientSettings).realtime.echoMessages
        = ((realtimeInput (some ⟨some ⟨some false, none, some 250, none,
            some false⟩⟩)).echoMessages).getD true
  ∧ (⟨⟨false, true, 250, 20000, false⟩⟩ : ClientSettings).realtime.reconnectionDelay
        = ((realtimeInput (some ⟨some ⟨some false, none, some 250, none,
            some false⟩⟩)).reconnectionDelay).getD 1000
  ∧ (⟨⟨false, true, 250, 20000, false⟩⟩ : ClientSettings).realtime.timeout
        = ((realtimeInput (some ⟨some ⟨some false, none, some 250, none,
            some false⟩⟩)).timeout).getD 20000
  ∧ (⟨⟨false, true, 250, 20000, false⟩⟩ : ClientSettings).realtime.bufferMessages
        = ((realtimeInput (some ⟨some ⟨some false, none, some 250, none,
            some false⟩⟩)).bufferMessages).getD true :=
  realtime_defaults_overrides "https://base.c1.agnost.dev" (JSValue.strv "key")
    (some ⟨some ⟨some false, none, some 250, none, some false⟩⟩)
    ⟨⟨false, true, 250, 20000, false⟩⟩ rfl

/-- C9: the constructor rejects every `baseUrl` that is empty or whose trimmed
value starts with neither `https://` nor `http://` with a
`missing_required_value` error; after the required-value check it rejects
every non-string `apiKey` with an `invalid_client_key` error; and when it does
not throw, all the checks passed. -/
theorem constructor_validation (baseUrl : String) (apiKey : JSValue)
    (options : Option ClientOptionsInput) :
    (AgnostClient.invalidBaseUrl baseUrl = true →
       errCode (AgnostClient.construct baseUrl apiKey options)
         = some "missing_required_value")
  ∧ (AgnostClient.invalidBaseUrl baseUrl = false →
       checkRequiredFails apiKey = true →
       errCode (AgnostClient.construct baseUrl apiKey options)
         = some "missing_required_value")
  ∧ (AgnostClient.invalidBaseUrl baseUrl = false →
       checkRequiredFails apiKey = false → apiKey.isString = false →
       errCode (AgnostClient.construct baseUrl apiKey options)
         = some "invalid_client_key")
  ∧ (∀ s, AgnostClient.construct baseUrl apiKey options = Except.ok s →
       AgnostClient.invalidBaseUrl baseUrl = false
         ∧ checkRequiredFails apiKey = false ∧ apiKey.isString = true) := by
  refine ⟨?_, ?_, ?_, ?_⟩
  · intro h1
    simp [AgnostClient.construct, h1, errCode]
  · intro h1 h2
    simp [AgnostClient.construct, h1, h2, errCode]
  · intro h1 h2 h3
    simp [AgnostClient.construct, h1, h2, h3, errCode]
  · intro s h
    by_cases h1 : AgnostClient.invalidBaseUrl baseUrl = true
    · simp [AgnostClient.construct, h1] at h
    · by_cases h2 : checkRequiredFails apiKey = true
      · simp [AgnostClient.construct, h1, h2] at h
      · by_cases h3 : apiKey.isString = true
        · exact ⟨by simpa using h1, by simpa using h2, h3⟩
        · simp [AgnostClient.construct, h1, h2, h3] at h

/-- Witness for C9: an empty base URL and a non-http one are rejected as
`missing_required_value`; a `null` key is caught by the required-value check;
a numeric key is rejected as `invalid_client_key`; a well-formed pair passes
every check. -/
theorem constructor_validation_witness :
    errCode (AgnostClient.construct "" (JSValue.strv "k") none)
        = some "missing_required_value"
  ∧ errCode (AgnostClient.construct "ftp://app.example" (JSValue.strv "k") none)
        = some "missing_required_value"
  ∧ errCode (AgnostClient.construct "https://app.example" JSValue.nullv none)
        = some "missing_required_value"
  ∧ errCode (AgnostClient.construct "https://app.example" (JSValue.numv 5) none)
        = some "invalid_client_key"
  ∧ (AgnostClient.invalidBaseUrl "https://app.example" = false
       ∧ checkRequiredFails (JSValue.strv "k") = false
       ∧ (JSValue.strv "k").isString = true) :=
  ⟨(constructor_validation "" (JSValue.strv "k") none).1 (by decide),
   (constructor_validation "ftp://app.example" (JSValue.strv "k") none).1
     (by decide),
   (constructor_validation "https://app.example" JSValue.nullv none).2.1
     (by decide) rfl,
   (constructor_validation "https://app.example" (JSValue.numv 5) none).2.2.1
     (by decide) rfl rfl,
   (constructor_validation "https://app.example" (JSValue.strv "k") none).2.2.2
     ⟨⟨true, true, 1000, 20000, true⟩⟩ rfl⟩

end Agnost
